import Mathlib

/-!
Verification development for the MEXC futures manipulation-monitor core:
the signal scoring and alert-prioritization pipeline. Numeric values are
modelled as rationals; Python dicts become structures (a key read only via
`.get(k, default)` is modelled as a plain field carrying that default when
the key is absent, a key whose presence is tested becomes an `Option`);
wall-clock timestamps become explicit rational parameters (seconds).
-/

namespace Mexc

/-- Python's builtin `round` on a number: round half to even (banker's
rounding), returning an integer. -/
def pythonRound (x : ℚ) : ℤ :=
  if x - ⌊x⌋ < 1/2 then ⌊x⌋
  else if 1/2 < x - ⌊x⌋ then ⌊x⌋ + 1
  else if 2 ∣ ⌊x⌋ then ⌊x⌋ else ⌊x⌋ + 1

/-- Python's `round(x, n)` for `n` decimal digits. -/
def roundTo (n : ℕ) (x : ℚ) : ℚ :=
  (pythonRound (x * 10 ^ n) : ℚ) / 10 ^ n

/-! ## Indicator engine: `data_fetcher.calculate_rsi` -/

/-- Price deltas `np.diff(prices)`: consecutive differences. -/
def rsi_deltas (prices : List ℚ) : List ℚ :=
  List.zipWith (fun a b => b - a) prices prices.tail

/-- First-`period` average gain (`np.mean(gains[:period])` with negative
deltas zeroed). -/
def rsi_avg_gain (prices : List ℚ) (period : ℕ) : ℚ :=
  (((rsi_deltas prices).map (fun d => if d < 0 then 0 else d)).take period).sum / period

/-- First-`period` average loss (positive deltas zeroed, then absolute
values, then `np.mean(losses[:period])`). -/
def rsi_avg_loss (prices : List ℚ) (period : ℕ) : ℚ :=
  ((((rsi_deltas prices).map (fun d => if 0 < d then 0 else d)).map (fun d => |d|)).take
    period).sum / period

/-- `DataFetcher.calculate_rsi(prices, period)`: `None` when fewer than
`period + 1` prices; `100` exactly when the average loss is zero; otherwise
the classic formula rounded to two decimals. -/
def calculate_rsi (prices : List ℚ) (period : ℕ) : Option ℚ :=
  if prices.length < period + 1 then none
  else
    let avg_gain := rsi_avg_gain prices period
    let avg_loss := rsi_avg_loss prices period
    if avg_loss = 0 then some 100
    else
      let rs := avg_gain / avg_loss
      some (roundTo 2 (100 - 100 / (1 + rs)))

/-! ## Data model for the composite signal detector
(`advanced_signals.py`, `advanced_signals_v2.py`) -/

/-- Per-symbol analysis snapshot: the fields of the nested `data` dict the
detectors read (`data['indicators']`, `data['volume_analysis']`,
`data['price_movement']`). `rsi_14` is `Option` because one call site reads
it without a default; `volume_trend` and `change_1m` carry the default (0)
used at every read. -/
structure MarketData where
  rsi_14 : Option ℚ
  spike_magnitude : ℚ
  volume_ratio_5m : ℚ
  volume_trend : ℚ
  change_5m : ℚ
  change_1m : ℚ
deriving DecidableEq

/-- Order-book snapshot fields read by the detectors, each with its read
default folded in (`spread_bps` 0, `liquidity_score` 1, `spoofing_score` 0,
`imbalance_ratio_v` — source key `imbalance_ratio` — 1). -/
structure OrderBook where
  spread_bps : ℚ
  liquidity_score : ℚ
  spoofing_score : ℚ
  imbalance_ratio_v : ℚ
deriving DecidableEq

/-- Funding-analysis dict consumed by the v2 detectors: `current_rate`
(default 0), `hours_to_funding` (default 8), `favorable_position`
(default "neutral"). -/
structure FundingData where
  current_rate : ℚ
  hours_to_funding : ℚ
  favorable_position : String
deriving DecidableEq

/-- Liquidation-analysis dict fields: `long_liquidations_1h`,
`short_liquidations_1h` (default 0), `cascade_probability` (default 0),
`cascade_direction` (default "unknown"), `liquidation_ratio_v` — source key
`liquidation_ratio` — (default 1). -/
structure LiquidationData where
  long_liquidations_1h : ℚ
  short_liquidations_1h : ℚ
  cascade_probability : ℚ
  cascade_direction : String
  liquidation_ratio_v : ℚ
deriving DecidableEq

/-- Statistical-analyzer dict: the nested `zscore` sub-dict is flattened
into `volume_zscore` (default 0) and `is_outlier` (default false);
`statistical_significance` is read by truthiness and `should_alert` is
compared against `False` exactly, hence `Option Bool`. -/
structure StatsData where
  volume_zscore : ℚ
  is_outlier : Bool
  statistical_significance : Bool
  should_alert : Option Bool
deriving DecidableEq

/-- Timeframe-divergence dict: `has_divergence` (truthiness),
`divergence_type` (compared to "bullish"/"bearish"; absent key modelled as
""), `divergence_strength` (default 0). -/
structure TFDivergence where
  has_divergence : Bool
  divergence_type : String
  divergence_strength : ℚ
deriving DecidableEq

/-- A detector's `(signal_triggered, confidence, description)` triple. -/
structure DetectorResult where
  triggered : Bool
  confidence : ℚ
  description : String
deriving DecidableEq

/-- The non-triggered result `(False, 0, "")`. -/
def noSignal : DetectorResult := ⟨false, 0, ""⟩

/-- Python's `x and p(x)` truthiness test on an optional dict: false when
the dict is absent or empty, otherwise the predicate on its fields. -/
def optTest {α : Type} (o : Option α) (p : α → Bool) : Bool :=
  match o with
  | some a => p a
  | none => false

/-! ## The individual detectors
Numeric format specifiers inside the Python f-string descriptions are
elided; the description text itself is kept. Nested `if` chains whose
fall-through continues to later patterns are flattened into equivalent
`if`/`else if` chains. -/

/-- `AdvancedSignalDetector.detect_volume_explosion`. -/
def detect_volume_explosion (d : MarketData) : DetectorResult :=
  let volume_ratio_v := d.spike_magnitude
  let price_change := d.change_5m
  if volume_ratio_v > 5 ∧ |price_change| > 3 then
    ⟨true, min (9/10) (volume_ratio_v / 10), "Volume explosion with price move"⟩
  else if volume_ratio_v > 3 ∧ d.volume_trend > 3/2 then
    ⟨true, 7/10, "Sustained volume increase"⟩
  else noSignal

/-- `AdvancedSignalDetector.detect_rsi_divergence`: note the truthiness
guard `if not rsi`, which treats a missing RSI and an RSI of exactly 0 the
same way. -/
def detect_rsi_divergence (d : MarketData) : DetectorResult :=
  match d.rsi_14 with
  | none => noSignal
  | some rsi =>
    if rsi = 0 then noSignal
    else
      let price_change := d.change_5m
      if rsi < 30 ∧ price_change < -1 then
        ⟨true, (30 - rsi) / 30, "Bullish divergence"⟩
      else if rsi > 70 ∧ price_change > 1 then
        ⟨true, (rsi - 70) / 30, "Bearish divergence"⟩
      else if 30 < rsi ∧ rsi < 50 ∧ price_change > 2 then
        ⟨true, 3/5, "Hidden bullish divergence"⟩
      else noSignal

/-- `AdvancedSignalDetector.detect_momentum_shift`. -/
def detect_momentum_shift (d : MarketData) : DetectorResult :=
  let c1 := d.change_1m
  let c5 := d.change_5m
  let volume_ratio_v := d.spike_magnitude
  let momentum := |c1| / max (1/10) |c5 - c1|
  if |c1| > 1 ∧ |c5| > 2 ∧ c1 * c5 > 0 ∧ momentum > 2 ∧ volume_ratio_v > 2 then
    ⟨true, min (17/20) (momentum / 5), "Momentum surge"⟩
  else if c1 * c5 < 0 ∧ |c1| > 1 then
    ⟨true, 7/10, "V-reversal detected"⟩
  else noSignal

/-- `AdvancedSignalDetector.detect_liquidity_trap`. -/
def detect_liquidity_trap (d : MarketData) (order_book : Option OrderBook) :
    DetectorResult :=
  match order_book with
  | none => noSignal
  | some b =>
    if b.spread_bps > 50 ∧ b.liquidity_score < 3/10 then
      ⟨true, 4/5, "Liquidity trap"⟩
    else if b.spoofing_score > 3/5 ∧ |d.change_5m| > 1 then
      ⟨true, b.spoofing_score, "Spoofing detected"⟩
    else noSignal

/-- `AdvancedSignalDetector.detect_accumulation_distribution`. -/
def detect_accumulation_distribution (d : MarketData)
    (order_book : Option OrderBook) : DetectorResult :=
  let rsi := d.rsi_14.getD 50
  let volume_ratio_v := d.spike_magnitude
  let price_change := d.change_5m
  if rsi < 40 ∧ volume_ratio_v > 2 ∧ |price_change| < 1 then
    ⟨true, 7/10, "Accumulation phase"⟩
  else if rsi > 70 ∧ volume_ratio_v > 2 ∧ price_change < 0 then
    ⟨true, 3/4, "Distribution phase"⟩
  else if optTest order_book (fun b => decide (b.imbalance_ratio_v > 3/2)) = true ∧
      rsi < 45 then
    ⟨true, 13/20, "Smart accumulation"⟩
  else noSignal

/-- `AdvancedSignalDetectorV2.detect_liquidation_squeeze`. An `or {}`
argument together with the `if not …` guard is modelled by `Option`. -/
def detect_liquidation_squeeze (d : MarketData)
    (liquidation_data : Option LiquidationData)
    (funding_data : Option FundingData) : DetectorResult :=
  match liquidation_data, funding_data with
  | some ld, some fd =>
    let funding_rate := fd.current_rate
    let long_liqs := ld.long_liquidations_1h
    let short_liqs := ld.short_liquidations_1h
    let rsi := d.rsi_14.getD 50
    let volume_ratio_v := d.spike_magnitude
    if funding_rate > 1/1000 ∧ long_liqs > short_liqs * 5 ∧ rsi > 75 ∧
        volume_ratio_v > 4 then
      ⟨true, min (9/10) (funding_rate / (1/500) * (rsi - 70) / 30),
        "Short squeeze ending"⟩
    else if funding_rate < -(1/2000) ∧ short_liqs > long_liqs * 3 ∧ rsi < 25 ∧
        volume_ratio_v > 3 then
      ⟨true, min (17/20) (|funding_rate / (1/1000)| * (30 - rsi) / 30),
        "Long squeeze ending"⟩
    else if ld.cascade_probability > 7/10 ∧ volume_ratio_v > 2 then
      ⟨true, ld.cascade_probability * (4/5), "Liquidation cascade probability"⟩
    else noSignal
  | _, _ => noSignal

/-- `AdvancedSignalDetectorV2.detect_funding_arbitrage` (the unused local
`expected_funding` is dropped). -/
def detect_funding_arbitrage (d : MarketData) (funding_data : Option FundingData)
    (order_book : Option OrderBook) : DetectorResult :=
  match funding_data with
  | none => noSignal
  | some fd =>
    let funding_rate := fd.current_rate
    let hours_to_funding := fd.hours_to_funding
    let rsi := d.rsi_14.getD 50
    if |funding_rate| < 3/2000 then noSignal
    else if funding_rate > 1/500 ∧ hours_to_funding < 2 ∧ rsi > 65 then
      ⟨true, min (4/5) (funding_rate / (3/1000) * (rsi - 60) / 40),
        "Funding SHORT"⟩
    else if funding_rate > 1/500 ∧ hours_to_funding < 2 ∧
        optTest order_book (fun b => decide (b.imbalance_ratio_v < 7/10)) = true then
      ⟨true, 3/5, "Funding arbitrage, weak bids"⟩
    else if funding_rate < -(1/1000) ∧ hours_to_funding < 2 ∧ rsi < 40 then
      ⟨true, min (4/5) (|funding_rate / (1/500)| * (40 - rsi) / 40),
        "Funding LONG"⟩
    else noSignal

/-- `AdvancedSignalDetectorV2.detect_hidden_accumulation_v2`. -/
def detect_hidden_accumulation_v2 (d : MarketData) (stats_data : Option StatsData)
    (funding_data : Option FundingData) : DetectorResult :=
  let rsi := d.rsi_14.getD 50
  let volume_ratio_v := d.volume_ratio_5m
  let price_change := d.change_5m
  let volume_zscore := match stats_data with
    | some s => s.volume_zscore
    | none => 0
  let is_outlier := match stats_data with
    | some s => s.is_outlier
    | none => false
  if rsi < 35 ∧ volume_ratio_v > 2 ∧ |price_change| < 1 ∧ volume_zscore > 2 then
    let confidence := min (17/20) ((35 - rsi) / 35 * volume_zscore / 3)
    let confidence :=
      if optTest funding_data (fun f => decide (f.current_rate < -(1/2000))) then
        confidence * (6/5)
      else confidence
    ⟨true, confidence, "Smart accumulation"⟩
  else if rsi > 70 ∧ volume_ratio_v > 2 ∧ price_change < 1/2 ∧ is_outlier = true then
    ⟨true, min (4/5) ((rsi - 70) / 30), "Hidden distribution"⟩
  else noSignal

/-- `AdvancedSignalDetectorV2.detect_timeframe_divergence_signal`. -/
def detect_timeframe_divergence_signal (tf_divergence : Option TFDivergence)
    (d : MarketData) : DetectorResult :=
  match tf_divergence with
  | none => noSignal
  | some tf =>
    if ¬ tf.has_divergence then noSignal
    else
      let volume_ratio_v := d.spike_magnitude
      if volume_ratio_v < 2 then noSignal
      else
        let confidence := min (7/10) (tf.divergence_strength * (3/10))
        if tf.divergence_type = "bullish" then
          ⟨true, confidence, "Bullish TF divergence"⟩
        else if tf.divergence_type = "bearish" then
          ⟨true, confidence, "Bearish TF divergence"⟩
        else noSignal

/-! ## Composite signal aggregation
(`AdvancedSignalDetectorV2.calculate_composite_signal_v2`) -/

/-- One entry of the `active_signals` list. -/
structure ActiveSignal where
  type : String
  confidence : ℚ
  description : String
  weight : ℚ
deriving DecidableEq

/-- The v2 `signal_weights` table with its `.get(name, 0.1)` default. -/
def signal_weights_v2 (name : String) : ℚ :=
  if name = "volume_explosion" then 1/5
  else if name = "rsi_divergence" then 3/20
  else if name = "momentum_shift" then 3/20
  else if name = "liquidity_trap" then 1/10
  else if name = "accumulation" then 1/10
  else if name = "liquidation_squeeze" then 3/20
  else if name = "funding_arbitrage" then 1/10
  else if name = "hidden_accumulation" then 1/20
  else 1/10

/-- Accumulator of the detector loop: running `weighted_confidence`,
`total_confidence` and the `active_signals` list. -/
structure AggState where
  weighted_confidence : ℚ
  total_confidence : ℚ
  active_signals : List ActiveSignal
deriving DecidableEq

/-- The v2 detector loop: a detector result enters the composite only when
`triggered and confidence > 0`; the list is processed in battery order. -/
def run_detectors : List (String × DetectorResult) → AggState
  | [] => ⟨0, 0, []⟩
  | (name, r) :: rest =>
    let s := run_detectors rest
    if r.triggered = true ∧ r.confidence > 0 then
      ⟨r.confidence * signal_weights_v2 name + s.weighted_confidence,
       r.confidence + s.total_confidence,
       ⟨name, r.confidence, r.description, signal_weights_v2 name⟩ :: s.active_signals⟩
    else s

/-- The fixed v2 detector battery, in source order. -/
def detector_battery_v2 (d : MarketData) (order_book : Option OrderBook)
    (funding_data : Option FundingData) (liquidation_data : Option LiquidationData)
    (stats_data : Option StatsData) (tf_divergence : Option TFDivergence) :
    List (String × DetectorResult) :=
  [("volume_explosion", detect_volume_explosion d),
   ("rsi_divergence", detect_rsi_divergence d),
   ("momentum_shift", detect_momentum_shift d),
   ("liquidity_trap", detect_liquidity_trap d order_book),
   ("accumulation", detect_accumulation_distribution d order_book),
   ("liquidation_squeeze", detect_liquidation_squeeze d liquidation_data funding_data),
   ("funding_arbitrage", detect_funding_arbitrage d funding_data order_book),
   ("hidden_accumulation", detect_hidden_accumulation_v2 d stats_data funding_data),
   ("timeframe_divergence", detect_timeframe_divergence_signal tf_divergence d)]

/-- The "Apply statistical adjustments" block: multiply by 1.3 on
statistical significance, then by 0.7 when the statistical layer vetoes
(`should_alert == False`) and the (already boosted) value is below 0.8. -/
def statistical_adjustment (stats_data : Option StatsData) (wc : ℚ) : ℚ :=
  match stats_data with
  | none => wc
  | some s =>
    let wc1 := if s.statistical_significance = true then wc * (13/10) else wc
    if s.should_alert = some false ∧ wc1 < 4/5 then wc1 * (7/10) else wc1

/-- The composite signal record (the wall-clock `timestamp` field is
omitted). -/
structure CompositeSignal where
  action : String
  risk_level : String
  confidence : ℚ
  num_signals : ℕ
  signals : List ActiveSignal
  description : String
deriving DecidableEq

/-- Aggregated detector state for a full v2 evaluation. -/
def composite_agg (d : MarketData) (order_book : Option OrderBook)
    (funding_data : Option FundingData) (liquidation_data : Option LiquidationData)
    (stats_data : Option StatsData) (tf_divergence : Option TFDivergence) : AggState :=
  run_detectors
    (detector_battery_v2 d order_book funding_data liquidation_data stats_data
      tf_divergence)

/-- `calculate_composite_signal_v2`: runs the battery, applies the
statistical adjustment, and picks action/risk.  The computed-but-unused
local `has_liquidation_signal` of the source is dropped. -/
def calculate_composite_signal_v2 (d : MarketData) (order_book : Option OrderBook)
    (funding_data : Option FundingData) (liquidation_data : Option LiquidationData)
    (stats_data : Option StatsData) (tf_divergence : Option TFDivergence) :
    CompositeSignal :=
  let agg := composite_agg d order_book funding_data liquidation_data stats_data
    tf_divergence
  let weighted_confidence := statistical_adjustment stats_data agg.weighted_confidence
  let num_signals := agg.active_signals.length
  let descriptions := agg.active_signals.map (fun s => s.description)
  if num_signals > 0 then
    let avg_confidence := agg.total_confidence / num_signals
    let price_direction := d.change_5m
    let has_funding_signal :=
      agg.active_signals.any (fun s => s.type = "funding_arbitrage")
    let strong := if price_direction ≥ 0 then "STRONG_BUY" else "STRONG_SELL"
    if weighted_confidence > 7/10 ∨ (num_signals ≥ 3 ∧ avg_confidence > 3/5) then
      let funding_position := match funding_data with
        | some f => f.favorable_position
        | none => "neutral"
      let action :=
        if has_funding_signal = true then
          if funding_position = "short" then "FUNDING_SHORT"
          else if funding_position = "long" then "FUNDING_LONG"
          else strong
        else strong
      ⟨action, "EXTREME", weighted_confidence, num_signals, agg.active_signals,
        String.intercalate " | " (descriptions.take 3)⟩
    else if weighted_confidence > 1/2 ∨ (num_signals ≥ 2 ∧ avg_confidence > 1/2) then
      ⟨if price_direction ≥ 0 then "BUY" else "SELL", "HIGH", weighted_confidence,
        num_signals, agg.active_signals,
        String.intercalate " | " (descriptions.take 3)⟩
    else
      ⟨"WATCH", "MEDIUM", weighted_confidence, num_signals, agg.active_signals,
        String.intercalate " | " (descriptions.take 3)⟩
  else
    ⟨"NEUTRAL", "LOW", 0, 0, agg.active_signals, "No significant patterns"⟩

/-! ## Alert prioritizer (`alert_prioritizer.py`)
Timestamps are rationals in seconds.  The per-symbol `defaultdict` maps are
modelled as total functions whose value at an untouched symbol is the
defaultdict default. -/

/-- The `patterns` sub-dict of an alert: every key is read through `.get`
with differing defaults at different sites, so each field is `Option`. -/
structure PatternsInfo where
  action : Option String
  confidence : Option ℚ
  num_signals : Option ℕ
deriving DecidableEq

/-- `statistical_data` fields read by the prioritizer (defaults folded in). -/
structure StatsAlertData where
  volume_zscore : ℚ
  is_outlier : Bool
deriving DecidableEq

/-- `funding_data` fields read by the prioritizer (defaults folded in). -/
structure FundingInfo where
  current_rate : ℚ
  hours_to_funding : ℚ
deriving DecidableEq

/-- `liquidation_data` field read by the prioritizer. -/
structure LiquidationInfo where
  cascade_probability : ℚ
deriving DecidableEq

/-- An `alert_data` dict as consumed by the prioritizer.  Sub-dicts whose
presence (or truthiness) is tested are `Option`. -/
structure AlertData where
  symbol : String
  patterns : PatternsInfo
  statistical_data : Option StatsAlertData
  funding_data : Option FundingInfo
  liquidation_data : Option LiquidationInfo
  risk_level : String
  priority : Option ℚ
deriving DecidableEq

/-- `market_conditions` dict (read via `.get('btc_trend', 'neutral')`). -/
structure MarketConditions where
  btc_trend : String
deriving DecidableEq

/-- A `recent_alerts` entry recorded by `update_alert_history`. -/
structure RecentAlert where
  time : ℚ
  action : String
  confidence : ℚ
  priority : ℚ
deriving DecidableEq

/-- Per-symbol `symbol_performance` record. -/
structure PerfData where
  total_alerts : ℕ
  successful_alerts : ℕ
  win_rate : ℚ
  last_alert_time : Option ℚ
  recent_failures : List ℚ
deriving DecidableEq

/-- The `defaultdict` default performance record. -/
def default_perf : PerfData := ⟨0, 0, 1/2, none, []⟩

/-- Mutable state of an `AlertPrioritizer` instance. -/
structure PrioritizerState where
  symbol_performance : String → PerfData
  recent_alerts : String → List RecentAlert
  alert_cooldowns : String → Option ℚ

/-- A freshly constructed prioritizer (empty maps / defaultdict defaults). -/
def initial_prioritizer : PrioritizerState :=
  ⟨fun _ => default_perf, fun _ => [], fun _ => none⟩

/-- The alert's action string, `alert_data.get('patterns', {}).get('action', '')`. -/
def alert_action (alert : AlertData) : String := alert.patterns.action.getD ""

/-- The eight additive adjustments of `calculate_alert_priority`, summed. -/
def alert_adjustments (st : PrioritizerState) (alert : AlertData)
    (market_conditions : Option MarketConditions) (now : ℚ) : ℚ :=
  let perf := st.symbol_performance alert.symbol
  -- 1. symbol performance (win-rate bands)
  let a1 :=
    if perf.win_rate > 7/10 then 1/5
    else if perf.win_rate > 3/5 then 1/10
    else if perf.win_rate < 3/10 then -(3/10)
    else if perf.win_rate < 2/5 then -(1/10)
    else 0
  -- 2. recent alert frequency
  let a2 :=
    if (st.recent_alerts alert.symbol).length = 0 then 1/5
    else if (st.recent_alerts alert.symbol).length > 5 then -(1/5)
    else 0
  -- 3. statistical significance
  let a3 := match alert.statistical_data with
    | none => 0
    | some s =>
      (if s.volume_zscore > 4 then 3/10
       else if s.volume_zscore > 3 then 1/5 else 0) +
      (if s.is_outlier = true then 1/10 else 0)
  -- 4. funding opportunity (only for FUNDING* actions with funding data)
  let a4 :=
    if (alert_action alert).startsWith "FUNDING" then
      match alert.funding_data with
      | some f =>
        if |f.current_rate| > 1/500 then 3/10
        else if |f.current_rate| > 1/1000 then 1/5 else 0
      | none => 0
    else 0
  -- 5. liquidation risk
  let a5 := match alert.liquidation_data with
    | none => 0
    | some l =>
      if l.cascade_probability > 4/5 then 3/10
      else if l.cascade_probability > 3/5 then 1/5 else 0
  -- 6. multi-signal confluence
  let num_signals := alert.patterns.num_signals.getD 0
  let a6 := if num_signals ≥ 4 then 1/5 else if num_signals ≥ 3 then 1/10 else 0
  -- 7. recent failure penalty (failures within the last 2 hours)
  let a7 :=
    if perf.recent_failures ≠ [] then
      let recent_fail_count :=
        (perf.recent_failures.filter (fun t => t > now - 7200)).length
      if recent_fail_count ≥ 3 then -(2/5)
      else if recent_fail_count ≥ 2 then -(1/5)
      else 0
    else 0
  -- 8. market conditions (do not fight a strong BTC trend)
  let a8 := match market_conditions with
    | none => 0
    | some m =>
      if m.btc_trend = "strong_down" ∧ (alert_action alert).endsWith "BUY" then
        -(1/5)
      else if m.btc_trend = "strong_up" ∧ (alert_action alert).endsWith "SELL" then
        -(1/5)
      else 0
  a1 + a2 + a3 + a4 + a5 + a6 + a7 + a8

/-- `AlertPrioritizer.calculate_alert_priority`: base confidence times one
plus the summed adjustments, clamped to [0.1, 1.5] and rounded to three
decimals. -/
def calculate_alert_priority (st : PrioritizerState) (alert : AlertData)
    (market_conditions : Option MarketConditions) (now : ℚ) : ℚ :=
  let base_confidence := alert.patterns.confidence.getD (1/2)
  roundTo 3
    (max (1/10)
      (min (base_confidence * (1 + alert_adjustments st alert market_conditions now))
        (3/2)))

/-- True when the symbol has a cooldown entry that has not yet expired. -/
def cooldown_active (st : PrioritizerState) (symbol : String) (now : ℚ) : Bool :=
  match st.alert_cooldowns symbol with
  | some e => decide (now < e)
  | none => false

/-- The alert's `hours_to_funding`,
`alert_data.get('funding_data', {}).get('hours_to_funding', 8)`. -/
def alert_hours_to_funding (alert : AlertData) : ℚ :=
  (alert.funding_data.map (fun f => f.hours_to_funding)).getD 8

/-- `AlertPrioritizer.should_send_alert`. -/
def should_send_alert (st : PrioritizerState) (alert : AlertData)
    (priority dynamic_threshold now : ℚ) : Bool :=
  if alert.risk_level = "EXTREME" ∧ priority > 9/10 then true
  else if cooldown_active st alert.symbol now = true ∧
      priority < dynamic_threshold * (3/2) then false
  else if priority < dynamic_threshold then false
  else if (alert_action alert).startsWith "FUNDING" ∧
      alert_hours_to_funding alert > 2 then false
  else true

/-- `AlertPrioritizer.update_alert_history`: append to `recent_alerts`
(keeping the last 10), set the cooldown expiry to now plus 3/5/10 minutes
for EXTREME/HIGH/other risk, and bump the performance counters.  The
best-effort database write is dropped. -/
def update_alert_history (st : PrioritizerState) (symbol : String)
    (alert : AlertData) (now : ℚ) : PrioritizerState :=
  let entry : RecentAlert :=
    ⟨now, alert_action alert, alert.patterns.confidence.getD 0, alert.priority.getD 0⟩
  let appended := st.recent_alerts symbol ++ [entry]
  let kept := if appended.length > 10 then appended.drop (appended.length - 10)
    else appended
  let cooldown_minutes : ℚ :=
    if alert.risk_level = "EXTREME" then 3
    else if alert.risk_level = "HIGH" then 5
    else 10
  let perf := st.symbol_performance symbol
  { symbol_performance := fun s =>
      if s = symbol then
        { perf with total_alerts := perf.total_alerts + 1, last_alert_time := some now }
      else st.symbol_performance s,
    recent_alerts := fun s => if s = symbol then kept else st.recent_alerts s,
    alert_cooldowns := fun s =>
      if s = symbol then some (now + cooldown_minutes * 60) else st.alert_cooldowns s }

/-! ## Trade-flow analysis (`enhanced_data_fetcher.analyze_trade_flow`) -/

/-- A processed trade record. Timestamps are seconds, so
`(a - b).total_seconds()` becomes plain subtraction. -/
structure Trade where
  price : ℚ
  volume : ℚ
  side : String
  timestamp : ℚ
deriving DecidableEq

/-- Fallback trade used to model in-range Python list indexing. -/
def default_trade : Trade := ⟨0, 0, "", 0⟩

/-- Total volume of buy-side trades. -/
def buy_volume (trades : List Trade) : ℚ :=
  ((trades.filter (fun t => t.side = "buy")).map (fun t => t.volume)).sum

/-- Total volume of sell-side trades. -/
def sell_volume (trades : List Trade) : ℚ :=
  ((trades.filter (fun t => t.side = "sell")).map (fun t => t.volume)).sum

/-- `buy_volume / sell_volume if sell_volume > 0 else 0`: source variable
`aggressor_ratio`. -/
def aggressor_ratio_v (trades : List Trade) : ℚ :=
  if sell_volume trades > 0 then buy_volume trades / sell_volume trades else 0

/-- `EnhancedDataFetcher._detect_wash_trading`. -/
def detect_wash_trading (trades : List Trade) : ℚ :=
  if trades.length < 10 then 0
  else
    let trade_sizes := (trades.take 20).map (fun t => t.volume)
    let max_count := ((trade_sizes.map (fun s => trade_sizes.count s)).max?).getD 0
    let s1 : ℚ := if max_count ≥ 3 then 3/10 else 0
    let s2 : ℚ :=
      (((List.range (min 10 trades.length)).drop 2).map (fun i =>
        let t0 := trades.getD i default_trade
        let t1 := trades.getD (i - 1) default_trade
        let t2 := trades.getD (i - 2) default_trade
        if t0.side ≠ t1.side ∧ t0.side = t2.side ∧ |t0.volume - t2.volume| < 10 then
          (1/5 : ℚ)
        else 0)).sum
    let round_trades :=
      ((trades.take 10).filter (fun t => (t.volume / 100).isInt)).length
    let s3 : ℚ := if round_trades ≥ 5 then 1/5 else 0
    min (s1 + s2 + s3) 1

/-- The dict returned by `analyze_trade_flow` for a non-empty tape. -/
structure TradeFlow where
  trade_count : ℕ
  buy_volume : ℚ
  sell_volume : ℚ
  net_flow : ℚ
  buy_count : ℕ
  sell_count : ℕ
  avg_trade_size : ℚ
  max_trade_size : ℚ
  aggressor_ratio_v : ℚ
  wash_trading_score : ℚ
  avg_time_between_trades : ℚ
  volume_concentration : ℚ
deriving DecidableEq

/-- `EnhancedDataFetcher.analyze_trade_flow`: `none` models the `{}`
returned for an empty tape. -/
def analyze_trade_flow (trades : List Trade) : Option TradeFlow :=
  if trades = [] then none
  else
    let bv := buy_volume trades
    let sv := sell_volume trades
    let total_volume := bv + sv
    let trade_sizes := trades.map (fun t => t.volume)
    let avg_trade_size := trade_sizes.sum / trades.length
    let max_trade_size := (trade_sizes.max?).getD 0
    let wash_score := detect_wash_trading trades
    let time_diffs :=
      List.zipWith (fun a b => a.timestamp - b.timestamp) trades trades.tail
    let avg_time := if time_diffs = [] then 0 else time_diffs.sum / time_diffs.length
    some
      { trade_count := trades.length
        buy_volume := roundTo 2 bv
        sell_volume := roundTo 2 sv
        net_flow := roundTo 2 (bv - sv)
        buy_count := (trades.filter (fun t => t.side = "buy")).length
        sell_count := (trades.filter (fun t => t.side = "sell")).length
        avg_trade_size := roundTo 2 avg_trade_size
        max_trade_size := roundTo 2 max_trade_size
        aggressor_ratio_v := roundTo 2 (aggressor_ratio_v trades)
        wash_trading_score := roundTo 2 wash_score
        avg_time_between_trades := roundTo 1 avg_time
        volume_concentration :=
          if total_volume > 0 then roundTo 2 (max_trade_size / total_volume) else 0 }

/-! ## Liquidation cascade probability
(`liquidation_monitor.calculate_cascade_probability`) -/

/-- The dict returned by `calculate_cascade_probability`.  The nearest
liquidation zone comes from a database query
(`_find_nearest_liquidation_zone`) and is passed through as a parameter. -/
structure CascadeResult where
  cascade_probability : ℚ
  cascade_direction : String
  nearest_liquidation_zone : Option ℚ
  risk_level : String
deriving DecidableEq

/-- The "Base probability from liquidation imbalance" banding of
`calculate_cascade_probability`: probability and cascade direction. -/
def cascade_band (ratio : ℚ) : ℚ × String :=
  if ratio > 5 then (7/10, "down")
  else if ratio < 1/5 then (7/10, "up")
  else if ratio > 2 then (1/2, "down")
  else if ratio < 1/2 then (1/2, "up")
  else (3/10, "neutral")

/-- The "Adjust for order book" block of `calculate_cascade_probability`:
low liquidity scales the base probability up. -/
def cascade_liquidity_adjust (base : ℚ) (order_book : Option OrderBook) : ℚ :=
  match order_book with
  | none => base
  | some b =>
    if b.liquidity_score < 3/10 then base * (3/2)
    else if b.liquidity_score < 1/2 then base * (6/5)
    else base

/-- `LiquidationMonitor.calculate_cascade_probability` (the unused locals
`long_liqs`/`short_liqs` are dropped; `nearest_zone` stands for the result
of the database-backed `_find_nearest_liquidation_zone`). -/
def calculate_cascade_probability (liquidation_data : LiquidationData)
    (order_book : Option OrderBook) (nearest_zone : Option ℚ) : CascadeResult :=
  let base0 := cascade_band liquidation_data.liquidation_ratio_v
  let base_prob := cascade_liquidity_adjust base0.1 order_book
  { cascade_probability := min (roundTo 2 base_prob) (19/20)
    cascade_direction := base0.2
    nearest_liquidation_zone := nearest_zone
    risk_level :=
      if base_prob > 7/10 then "extreme"
      else if base_prob > 1/2 then "high"
      else "medium" }

/-! ## Funding-rate fetch (`funding_analyzer.fetch_funding_rate`) -/

/-- The parsed body of a funding-rate API response: `success` flag and the
three alternative rate keys tried by the `or` chain
(`fundingRate`, `funding_rate`, `rate`), plus `maxFundingRate`
(read with default 0). -/
structure FundingApiData where
  success : Bool
  fundingRate : Option ℚ
  funding_rate_key : Option ℚ
  rate : Option ℚ
  maxFundingRate : ℚ
deriving DecidableEq

/-- Python `a or b` over optional numeric fields: a present, non-zero value
wins, otherwise fall through. -/
def orFalsy (o : Option ℚ) (alt : ℚ) : ℚ :=
  match o with
  | some v => if v = 0 then alt else v
  | none => alt

/-- The dict returned by `fetch_funding_rate` (wall-clock `timestamp`
omitted). -/
structure FundingResult where
  symbol : String
  funding_rate : ℚ
  max_funding_rate : ℚ
  hours_to_funding : ℚ
deriving DecidableEq

/-- The zero-state dict returned on an unsuccessful response or any raised
exception: rate 0.0, 8 hours to funding. -/
def zero_funding_state (symbol : String) : FundingResult := ⟨symbol, 0, 0, 8⟩

/-- The non-cached path of `fetch_funding_rate`: parse the response if the
request succeeded and the API reported success, otherwise the zero-state. -/
def fetch_funding_rate_fresh (symbol : String)
    (response : Except Unit FundingApiData) (hours_next : ℚ) : FundingResult :=
  match response with
  | .error _ => zero_funding_state symbol
  | .ok data =>
    if data.success = true then
      { symbol := symbol
        funding_rate := orFalsy data.fundingRate
          (orFalsy data.funding_rate_key (orFalsy data.rate 0))
        max_funding_rate := data.maxFundingRate
        hours_to_funding := hours_next }
    else zero_funding_state symbol

/-- `FundingAnalyzer.fetch_funding_rate`, with the network call and clock
made explicit: `cache` is the symbol's `funding_cache` entry (result and
the `time.time()` of caching), `now_epoch` the current `time.time()`,
`response` the outcome of the HTTP request and parse (`Except.error` for
any raised exception), and `hours_next` the value `get_hours_to_funding()`
would return.  The function is total: every failure maps to the
zero-state, never to an error value. -/
def fetch_funding_rate (symbol : String) (cache : Option (FundingResult × ℚ))
    (now_epoch : ℚ) (response : Except Unit FundingApiData) (hours_next : ℚ) :
    FundingResult :=
  match cache with
  | some (cached, cache_time) =>
    if now_epoch - cache_time < 300 then cached
    else fetch_funding_rate_fresh symbol response hours_next
  | none => fetch_funding_rate_fresh symbol response hours_next

/-! ## Spec-side renderings and concrete inputs used by the claim theorems -/

/-- Sum of all v2 detector weights: the eight table entries plus the
default weight carried by the one battery member absent from the table
(`timeframe_divergence`). -/
def signal_weights_sum_v2 : ℚ :=
  signal_weights_v2 "volume_explosion" + signal_weights_v2 "rsi_divergence" +
  signal_weights_v2 "momentum_shift" + signal_weights_v2 "liquidity_trap" +
  signal_weights_v2 "accumulation" + signal_weights_v2 "liquidation_squeeze" +
  signal_weights_v2 "funding_arbitrage" + signal_weights_v2 "hidden_accumulation" +
  signal_weights_v2 "timeframe_divergence"

/-- Spec-side rendering of the composite risk rule: risk as a function of
the adjusted weighted confidence, the number of counted signals and their
average confidence only. -/
def claim_risk_level (wc : ℚ) (n : ℕ) (avg : ℚ) : String :=
  if n = 0 then "LOW"
  else if wc > 7/10 ∨ (n ≥ 3 ∧ avg > 3/5) then "EXTREME"
  else if wc > 1/2 ∨ (n ≥ 2 ∧ avg > 1/2) then "HIGH"
  else "MEDIUM"

/-- Spec-side rendering of the composite action rule (direction from the
sign of the 5-minute change, funding special case when a funding-arbitrage
signal is among the counted set and a favorable side is identified). -/
def claim_action (wc : ℚ) (n : ℕ) (avg : ℚ) (price_direction : ℚ)
    (has_funding : Bool) (funding_position : String) : String :=
  if n = 0 then "NEUTRAL"
  else if wc > 7/10 ∨ (n ≥ 3 ∧ avg > 3/5) then
    if has_funding = true then
      if funding_position = "short" then "FUNDING_SHORT"
      else if funding_position = "long" then "FUNDING_LONG"
      else if price_direction ≥ 0 then "STRONG_BUY" else "STRONG_SELL"
    else if price_direction ≥ 0 then "STRONG_BUY" else "STRONG_SELL"
  else if wc > 1/2 ∨ (n ≥ 2 ∧ avg > 1/2) then
    if price_direction ≥ 0 then "BUY" else "SELL"
  else "WATCH"

/-- Spec-side rendering of the cascade-probability formula exactly as the
claim states it: a banded base, multiplied by 1.5 exactly when the
order-book liquidity score is below 0.3, capped at 0.95 (no other
multiplier). -/
def claimed_cascade_probability (liquidation_data : LiquidationData)
    (order_book : Option OrderBook) : ℚ :=
  let ratio := liquidation_data.liquidation_ratio_v
  let base : ℚ :=
    if ratio > 5 ∨ ratio < 1/5 then 7/10
    else if ratio > 2 ∨ ratio < 1/2 then 1/2
    else 3/10
  let multiplied :=
    if optTest order_book (fun b => decide (b.liquidity_score < 3/10)) then
      base * (3/2)
    else base
  min (roundTo 2 multiplied) (19/20)

/-- Spec-side rendering of the amended cascade-probability formula: same
as the claim but with the additional 1.2× multiplier when the liquidity
score lies in [0.3, 0.5). -/
def claimed_cascade_probability_amended (liquidation_data : LiquidationData)
    (order_book : Option OrderBook) : ℚ :=
  let ratio := liquidation_data.liquidation_ratio_v
  let base : ℚ :=
    if ratio > 5 ∨ ratio < 1/5 then 7/10
    else if ratio > 2 ∨ ratio < 1/2 then 1/2
    else 3/10
  let mult : ℚ :=
    match order_book with
    | none => 1
    | some b =>
      if b.liquidity_score < 3/10 then 3/2
      else if b.liquidity_score < 1/2 then 6/5
      else 1
  min (roundTo 2 (base * mult)) (19/20)

/-- Market snapshot on which only the timeframe-divergence detector
triggers (with confidence 0). -/
def c2_market : MarketData := ⟨some 50, 2, 0, 0, 0, 0⟩

/-- Timeframe divergence flagged with zero strength: triggers the detector
at confidence exactly 0. -/
def c2_tf : TFDivergence := ⟨true, "bullish", 0⟩

/-- A strictly increasing 15-price series. -/
def inc15 : List ℚ := [0, 1, 2, 3, 4, 5, 6, 7, 8, 9, 10, 11, 12, 13, 14]

/-- A strictly decreasing 15-price series. -/
def dec15 : List ℚ := [14, 13, 12, 11, 10, 9, 8, 7, 6, 5, 4, 3, 2, 1, 0]

/-- A one-trade tape with buy volume 5 and sell volume 0. -/
def c7_tape : List Trade := [⟨1, 5, "buy", 0⟩]

/-- A concrete alert for the cooldown scenarios. -/
def sample_alert (risk : String) : AlertData :=
  ⟨"AAA", ⟨some "STRONG_BUY", some 1, some 0⟩, none, none, none, risk, some 1⟩

/-- Liquidation data with ratio 1 (neutral band, base probability 0.3). -/
def c8_liq : LiquidationData := ⟨0, 0, 0, "unknown", 1⟩

/-- Order book with liquidity score 0.4: inside the 1.2× band the claim
omits. -/
def c8_book : OrderBook := ⟨0, 2/5, 0, 1⟩

/-! ## Helper lemmas -/

theorem le_pythonRound (m : ℤ) (x : ℚ) (h : (m : ℚ) ≤ x) : m ≤ pythonRound x := by
  have hf : m ≤ ⌊x⌋ := Int.le_floor.mpr h
  unfold pythonRound
  split_ifs <;> omega

theorem pythonRound_le (m : ℤ) (x : ℚ) (h : x ≤ (m : ℚ)) : pythonRound x ≤ m := by
  have hfl : (⌊x⌋ : ℚ) ≤ x := Int.floor_le x
  have hf : ⌊x⌋ ≤ m := by
    have := Int.floor_le_floor h
    simpa using this
  unfold pythonRound
  split_ifs with h1 h2 h3
  · exact hf
  · -- here 1/2 < x - ⌊x⌋, so x > ⌊x⌋ and hence ⌊x⌋ < m
    have hlt : (⌊x⌋ : ℚ) < (m : ℚ) := by linarith
    have : ⌊x⌋ < m := by exact_mod_cast hlt
    omega
  · exact hf
  · have hlt : (⌊x⌋ : ℚ) < (m : ℚ) := by linarith
    have : ⌊x⌋ < m := by exact_mod_cast hlt
    omega

theorem le_roundTo (n : ℕ) (a : ℤ) (x : ℚ) (ha : (a : ℚ) / 10 ^ n ≤ x) :
    (a : ℚ) / 10 ^ n ≤ roundTo n x := by
  have hpow : (0 : ℚ) < 10 ^ n := by positivity
  have h1 : (a : ℚ) ≤ x * 10 ^ n := by
    rw [div_le_iff₀ hpow] at ha; exact ha
  have c1 : (a : ℚ) ≤ (pythonRound (x * 10 ^ n) : ℚ) := by
    exact_mod_cast le_pythonRound a _ h1
  unfold roundTo
  gcongr

theorem roundTo_le (n : ℕ) (b : ℤ) (x : ℚ) (hb : x ≤ (b : ℚ) / 10 ^ n) :
    roundTo n x ≤ (b : ℚ) / 10 ^ n := by
  have hpow : (0 : ℚ) < 10 ^ n := by positivity
  have h2 : x * 10 ^ n ≤ (b : ℚ) := by
    rw [le_div_iff₀ hpow] at hb; exact hb
  have c2 : ((pythonRound (x * 10 ^ n) : ℚ)) ≤ (b : ℚ) := by
    exact_mod_cast pythonRound_le b _ h2
  unfold roundTo
  gcongr

theorem pythonRound_intCast (m : ℤ) : pythonRound (m : ℚ) = m := by
  unfold pythonRound
  rw [Int.floor_intCast, sub_self]
  norm_num

theorem roundTo_eval (n : ℕ) (x : ℚ) (m : ℤ) (h : x * 10 ^ n = (m : ℚ)) :
    roundTo n x = (m : ℚ) / 10 ^ n := by
  unfold roundTo
  rw [h, pythonRound_intCast]

theorem weight_v2_nonneg (name : String) : 0 ≤ signal_weights_v2 name := by
  unfold signal_weights_v2
  split_ifs <;> norm_num

theorem run_detectors_wc_nonneg (l : List (String × DetectorResult)) :
    0 ≤ (run_detectors l).weighted_confidence := by
  induction l with
  | nil => simp [run_detectors]
  | cons p rest ih =>
    obtain ⟨name, r⟩ := p
    rw [run_detectors]
    split_ifs with hc
    · dsimp only
      have hw := weight_v2_nonneg name
      have : 0 ≤ r.confidence * signal_weights_v2 name :=
        mul_nonneg (le_of_lt hc.2) hw
      linarith
    · exact ih

theorem run_detectors_wc_le (l : List (String × DetectorResult))
    (h : ∀ p ∈ l, p.2.confidence ≤ 1) :
    (run_detectors l).weighted_confidence ≤
      (l.map (fun p => signal_weights_v2 p.1)).sum := by
  induction l with
  | nil => simp [run_detectors]
  | cons p rest ih =>
    obtain ⟨name, r⟩ := p
    have hr : r.confidence ≤ 1 := h (name, r) (List.mem_cons_self _ _)
    have hrest := ih (fun q hq => h q (List.mem_cons_of_mem _ hq))
    rw [run_detectors, List.map_cons, List.sum_cons]
    have hw := weight_v2_nonneg name
    split_ifs with hc
    · dsimp only
      have : r.confidence * signal_weights_v2 name ≤ signal_weights_v2 name := by
        nlinarith
      linarith
    · linarith

/-! ## Claim theorems -/

/-- Claim C10: when the RSI-14 indicator is missing (`None`) or exactly 0,
`detect_rsi_divergence` returns (not triggered, confidence 0, empty
description); the truthiness guard makes RSI 0 indistinguishable from an
undefined RSI, so no divergence branch can fire there. -/
theorem rsi_divergence_falsy_guard (d : MarketData)
    (h : d.rsi_14 = none ∨ d.rsi_14 = some 0) :
    detect_rsi_divergence d = noSignal := by
  rcases h with h | h <;> simp [detect_rsi_divergence, h]

/-- Witness for C10: at RSI exactly 0 with a −2% five-minute move (the
bullish price condition) and at missing RSI, the detector stays silent. -/
theorem rsi_divergence_falsy_guard_witness :
    detect_rsi_divergence ⟨some 0, 6, 3, 0, -2, 0⟩ = noSignal ∧
    detect_rsi_divergence ⟨none, 6, 3, 0, -2, 0⟩ = noSignal :=
  ⟨rsi_divergence_falsy_guard _ (Or.inr rfl),
   rsi_divergence_falsy_guard _ (Or.inl rfl)⟩

/-- Claim C9: whenever `fetch_funding_rate` actually fetches (no fresh
cache entry) and the fetch raises or the API reports failure, it returns
the zero-state record (rate 0.0, 8 hours to funding) — failures are
absorbed, never propagated (the embedding is a total function into
`FundingResult`, with `Except.error` covering every raised exception). -/
theorem fetch_funding_rate_absorbs_failures (symbol : String)
    (cache : Option (FundingResult × ℚ)) (now_epoch : ℚ)
    (response : Except Unit FundingApiData) (hours_next : ℚ)
    (hmiss : cache = none ∨ ∃ p, cache = some p ∧ ¬ now_epoch - p.2 < 300)
    (hfail : response = .error () ∨
      ∃ data, response = .ok data ∧ data.success = false) :
    fetch_funding_rate symbol cache now_epoch response hours_next =
      zero_funding_state symbol := by
  have hfresh : fetch_funding_rate_fresh symbol response hours_next =
      zero_funding_state symbol := by
    rcases hfail with h | ⟨data, h, hs⟩
    · simp [fetch_funding_rate_fresh, h]
    · simp [fetch_funding_rate_fresh, h, hs]
  rcases hmiss with h | ⟨⟨c, t⟩, h, ht⟩
  · simp [fetch_funding_rate, h, hfresh]
  · simp [fetch_funding_rate, h, ht, hfresh]

/-- Witness for C9: a cache miss together with a raised exception yields
the zero-state. -/
theorem fetch_funding_rate_absorbs_failures_witness :
    fetch_funding_rate "BTC_USDT" none 0 (.error ()) 8 =
      zero_funding_state "BTC_USDT" :=
  fetch_funding_rate_absorbs_failures "BTC_USDT" none 0 (.error ()) 8
    (Or.inl rfl) (Or.inl rfl)

/-- Counterexample for C7: on a non-empty tape with positive buy volume
and zero sell volume, `analyze_trade_flow` reports the aggressor ratio as
the finite default 0, not as infinity. -/
theorem trade_flow_zero_sell_counterexample :
    c7_tape ≠ [] ∧ buy_volume c7_tape = 5 ∧ sell_volume c7_tape = 0 ∧
    (analyze_trade_flow c7_tape).map (fun f => f.aggressor_ratio_v) = some 0 := by
  have hs : sell_volume c7_tape = 0 := by simp [sell_volume, c7_tape]
  have hagg : aggressor_ratio_v c7_tape = 0 := by simp [aggressor_ratio_v, hs]
  refine ⟨by simp [c7_tape], by simp [buy_volume, c7_tape], hs, ?_⟩
  unfold analyze_trade_flow
  rw [if_neg (by simp [c7_tape] : ¬ c7_tape = [])]
  simp [hagg, roundTo, pythonRound]

/-- Claim C7 (amended): for every non-empty trade tape whose total sell
volume is 0 and total buy volume is positive, the trade-flow analysis
reports the aggressor ratio as 0 — the zero-sell-volume case is mapped to
a finite default, not signalled as infinity. -/
theorem trade_flow_zero_sell (trades : List Trade) (hne : trades ≠ [])
    (hsell : sell_volume trades = 0) (hbuy : 0 < buy_volume trades) :
    (analyze_trade_flow trades).map (fun f => f.aggressor_ratio_v) = some 0 := by
  have hagg : aggressor_ratio_v trades = 0 := by
    unfold aggressor_ratio_v
    rw [hsell]
    simp
  have hr0 : roundTo 2 (0 : ℚ) = 0 := by
    norm_num [roundTo, pythonRound]
  unfold analyze_trade_flow
  rw [if_neg hne]
  simp [hagg, hr0]

/-- Witness for C7 (amended): the one-buy tape. -/
theorem trade_flow_zero_sell_witness :
    (analyze_trade_flow c7_tape).map (fun f => f.aggressor_ratio_v) = some 0 :=
  trade_flow_zero_sell c7_tape (by simp [c7_tape])
    (by simp [sell_volume, c7_tape]) (by norm_num [buy_volume, c7_tape])

/-- Counterexample for C8: at liquidation ratio 1 (base 0.3) and liquidity
score 0.4, the code multiplies by 1.2 (a band the claim omits) and returns
0.36, while the claimed formula (1.5× only below 0.3) returns 0.3. -/
theorem cascade_probability_counterexample :
    (calculate_cascade_probability c8_liq (some c8_book) none).cascade_probability
      = 9/25 ∧
    claimed_cascade_probability c8_liq (some c8_book) = 3/10 ∧
    (9/25 : ℚ) ≠ 3/10 := by
  have h36 : roundTo 2 (9/25 : ℚ) = 9/25 := by
    rw [roundTo_eval 2 _ 36 (by norm_num)]; norm_num
  have h30 : roundTo 2 (3/10 : ℚ) = 3/10 := by
    rw [roundTo_eval 2 _ 30 (by norm_num)]; norm_num
  refine ⟨?_, ?_, by norm_num⟩
  · have hband : cascade_band 1 = (3/10, "neutral") := by
      unfold cascade_band; norm_num
    have hadj : cascade_liquidity_adjust ((3/10 : ℚ), "neutral").1 (some c8_book)
        = 9/25 := by
      unfold cascade_liquidity_adjust c8_book; norm_num
    unfold calculate_cascade_probability c8_liq
    dsimp only
    rw [hband, hadj, h36]
    norm_num [min_def]
  · unfold claimed_cascade_probability c8_liq c8_book optTest
    norm_num [h30, min_def]

/-- Claim C8 (amended): `calculate_cascade_probability` selects the base by
liquidation-ratio band (0.7 above 5 or below 0.2, 0.5 above 2 or below 0.5,
else 0.3), multiplies it by 1.5 when the order-book liquidity score is
below 0.3 and by 1.2 when it is in [0.3, 0.5), caps at 0.95, and the
returned value always lies in [0.3, 0.95]. -/
theorem cascade_probability_amended (ld : LiquidationData)
    (ob : Option OrderBook) (nz : Option ℚ) :
    (calculate_cascade_probability ld ob nz).cascade_probability =
      claimed_cascade_probability_amended ld ob ∧
    3/10 ≤ (calculate_cascade_probability ld ob nz).cascade_probability ∧
    (calculate_cascade_probability ld ob nz).cascade_probability ≤ 19/20 := by
  have key : ∀ v : ℚ, 3/10 ≤ v →
      3/10 ≤ min (roundTo 2 v) (19/20) ∧ min (roundTo 2 v) (19/20) ≤ 19/20 := by
    intro v hv
    have he : ((30 : ℤ) : ℚ) / 10 ^ 2 = 3/10 := by norm_num
    have h2 : ((30 : ℤ) : ℚ) / 10 ^ 2 ≤ v := by rw [he]; exact hv
    have h3 : (3/10 : ℚ) ≤ roundTo 2 v := by
      have hle := le_roundTo 2 30 v h2
      rw [he] at hle; exact hle
    exact ⟨le_min h3 (by norm_num), min_le_right _ _⟩
  have heq : cascade_liquidity_adjust (cascade_band ld.liquidation_ratio_v).1 ob =
      (if ld.liquidation_ratio_v > 5 ∨ ld.liquidation_ratio_v < 1/5 then (7:ℚ)/10
       else if ld.liquidation_ratio_v > 2 ∨ ld.liquidation_ratio_v < 1/2 then 1/2
       else 3/10) *
      (match ob with
       | none => 1
       | some b =>
         if b.liquidity_score < 3/10 then 3/2
         else if b.liquidity_score < 1/2 then 6/5
         else 1) := by
    rcases ob with _ | b <;>
      unfold cascade_liquidity_adjust cascade_band <;>
      dsimp only <;>
      split_ifs <;>
      first
      | ring1
      | (exfalso; push_neg at *; casesm* _ ∨ _, _ ∧ _ <;> linarith)
  have hlb : 3/10 ≤ cascade_liquidity_adjust (cascade_band ld.liquidation_ratio_v).1 ob := by
    rcases ob with _ | b <;>
      unfold cascade_liquidity_adjust cascade_band <;>
      dsimp only <;>
      split_ifs <;> norm_num
  refine ⟨?_, (key _ hlb).1, (key _ hlb).2⟩
  unfold calculate_cascade_probability claimed_cascade_probability_amended
  dsimp only
  rw [← heq]

/-- Witness is not needed for `cascade_probability_amended` (no
hypotheses); this closed instance exercises the 1.5× band: base 0.7 at
ratio 8, liquidity 0.2, capped at 0.95. -/
theorem cascade_probability_amended_eval :
    (calculate_cascade_probability ⟨0, 0, 0, "unknown", 8⟩
      (some ⟨0, 1/5, 0, 1⟩) none).cascade_probability = 19/20 := by
  have h105 : roundTo 2 (21/20 : ℚ) = 21/20 := by
    rw [roundTo_eval 2 _ 105 (by norm_num)]; norm_num
  have hband : cascade_band 8 = (7/10, "down") := by
    unfold cascade_band; norm_num
  have hadj : cascade_liquidity_adjust ((7/10 : ℚ), "down").1
      (some ⟨0, 1/5, 0, 1⟩) = 21/20 := by
    unfold cascade_liquidity_adjust; norm_num
  unfold calculate_cascade_probability
  dsimp only
  rw [hband, hadj, h105]
  norm_num [min_def]

theorem rsi_deltas_pos (prices : List ℚ) (h : prices.Chain' (· < ·)) :
    ∀ d ∈ rsi_deltas prices, 0 < d := by
  induction prices with
  | nil => intro d hd; simp [rsi_deltas] at hd
  | cons a rest ih =>
    cases rest with
    | nil => intro d hd; simp [rsi_deltas] at hd
    | cons b t =>
      rw [List.chain'_cons] at h
      intro d hd
      simp only [rsi_deltas, List.tail_cons, List.zipWith_cons_cons] at hd
      rcases List.mem_cons.mp hd with rfl | hd
      · linarith [h.1]
      · exact ih h.2 d hd

theorem rsi_deltas_neg (prices : List ℚ) (h : prices.Chain' (· > ·)) :
    ∀ d ∈ rsi_deltas prices, d < 0 := by
  induction prices with
  | nil => intro d hd; simp [rsi_deltas] at hd
  | cons a rest ih =>
    cases rest with
    | nil => intro d hd; simp [rsi_deltas] at hd
    | cons b t =>
      rw [List.chain'_cons] at h
      intro d hd
      simp only [rsi_deltas, List.tail_cons, List.zipWith_cons_cons] at hd
      rcases List.mem_cons.mp hd with rfl | hd
      · have : b < a := h.1
        linarith
      · exact ih h.2 d hd

theorem rsi_deltas_length (prices : List ℚ) :
    (rsi_deltas prices).length = prices.length - 1 := by
  unfold rsi_deltas
  rw [List.length_zipWith, List.length_tail]
  omega

/-- Claim C6: `calculate_rsi` with period 14 is undefined below 15 prices;
on a strictly increasing series of at least 15 prices the average loss is 0
and the result is exactly 100 (the saturating branch); on a strictly
decreasing series the average gain is 0 while the average loss is nonzero,
and the formula yields exactly 0. -/
theorem calculate_rsi_monotone_extremes :
    (∀ prices : List ℚ, prices.length < 15 → calculate_rsi prices 14 = none) ∧
    (∀ prices : List ℚ, 15 ≤ prices.length → prices.Chain' (· < ·) →
      rsi_avg_loss prices 14 = 0 ∧ calculate_rsi prices 14 = some 100) ∧
    (∀ prices : List ℚ, 15 ≤ prices.length → prices.Chain' (· > ·) →
      rsi_avg_gain prices 14 = 0 ∧ rsi_avg_loss prices 14 ≠ 0 ∧
      calculate_rsi prices 14 = some 0) := by
  refine ⟨?_, ?_, ?_⟩
  · intro prices h
    unfold calculate_rsi
    rw [if_pos (by omega)]
  · intro prices hlen hchain
    have hloss : rsi_avg_loss prices 14 = 0 := by
      unfold rsi_avg_loss
      have hz : ((((rsi_deltas prices).map (fun d => if 0 < d then 0 else d)).map
          (fun d => |d|)).take 14).sum = 0 := by
        apply List.sum_eq_zero
        intro x hx
        have hx' := List.take_subset 14 _ hx
        obtain ⟨y, hy, rfl⟩ := List.mem_map.mp hx'
        obtain ⟨d, hd, rfl⟩ := List.mem_map.mp hy
        have hdpos := rsi_deltas_pos prices hchain d hd
        rw [if_pos hdpos]
        simp
      rw [hz]
      simp
    refine ⟨hloss, ?_⟩
    unfold calculate_rsi
    rw [if_neg (by omega)]
    rw [if_pos hloss]
  · intro prices hlen hchain
    have hgain : rsi_avg_gain prices 14 = 0 := by
      unfold rsi_avg_gain
      have hz : (((rsi_deltas prices).map (fun d => if d < 0 then 0 else d)).take
          14).sum = 0 := by
        apply List.sum_eq_zero
        intro x hx
        have hx' := List.take_subset 14 _ hx
        obtain ⟨d, hd, rfl⟩ := List.mem_map.mp hx'
        have hdneg := rsi_deltas_neg prices hchain d hd
        rw [if_pos hdneg]
      rw [hz]
      simp
    have hlosspos : 0 < rsi_avg_loss prices 14 := by
      unfold rsi_avg_loss
      have hpos : 0 < ((((rsi_deltas prices).map (fun d => if 0 < d then 0 else d)).map
          (fun d => |d|)).take 14).sum := by
        apply List.sum_pos
        · intro x hx
          have hx' := List.take_subset 14 _ hx
          obtain ⟨y, hy, rfl⟩ := List.mem_map.mp hx'
          obtain ⟨d, hd, rfl⟩ := List.mem_map.mp hy
          have hdneg := rsi_deltas_neg prices hchain d hd
          rw [if_neg (by linarith)]
          simpa using by linarith
        · have hl : ((((rsi_deltas prices).map (fun d => if 0 < d then 0 else d)).map
              (fun d => |d|)).take 14).length = 14 := by
            rw [List.length_take, List.length_map, List.length_map,
              rsi_deltas_length]
            omega
          intro hnil
          rw [hnil] at hl
          simp at hl
      positivity
    have hloss : rsi_avg_loss prices 14 ≠ 0 := ne_of_gt hlosspos
    refine ⟨hgain, hloss, ?_⟩
    unfold calculate_rsi
    rw [if_neg (by omega)]
    rw [if_neg hloss]
    rw [hgain]
    rw [zero_div]
    norm_num [roundTo, pythonRound]

/-- Witness for C6: a 3-price list is undefined, the increasing 0..14 ramp
gives exactly 100, the decreasing ramp exactly 0. -/
theorem calculate_rsi_monotone_extremes_witness :
    calculate_rsi [1, 2, 3] 14 = none ∧
    calculate_rsi inc15 14 = some 100 ∧
    calculate_rsi dec15 14 = some 0 :=
  ⟨calculate_rsi_monotone_extremes.1 [1, 2, 3] (by simp),
   (calculate_rsi_monotone_extremes.2.1 inc15 (by simp [inc15])
     (by norm_num [inc15, List.chain'_cons])).2,
   (calculate_rsi_monotone_extremes.2.2 dec15 (by simp [dec15])
     (by norm_num [dec15, List.chain'_cons])).2.2⟩

/-- Claim C4: `should_send_alert` returns true exactly when either the
risk is EXTREME with priority above 0.9, or (no active-cooldown block at
priority below 1.5× the threshold) and priority is not below the threshold
and (for FUNDING actions) hours-to-funding is at most 2.  In particular it
is always true in the EXTREME/0.9 case, false inside an active cooldown
below 1.5× the threshold, false below the threshold, and false for a
FUNDING action more than 2 hours from funding. -/
theorem should_send_alert_spec (st : PrioritizerState) (alert : AlertData)
    (priority dynamic_threshold now : ℚ) :
    should_send_alert st alert priority dynamic_threshold now = true ↔
      ((alert.risk_level = "EXTREME" ∧ priority > 9/10) ∨
       (¬ (cooldown_active st alert.symbol now = true ∧
           priority < dynamic_threshold * (3/2)) ∧
        ¬ priority < dynamic_threshold ∧
        ¬ ((alert_action alert).startsWith "FUNDING" ∧
           alert_hours_to_funding alert > 2))) := by
  unfold should_send_alert
  split_ifs with h1 h2 h3 h4
  · simp only [true_iff]
    exact Or.inl h1
  · simp only [Bool.false_eq_true, false_iff]
    rintro (h | ⟨hc, -, -⟩)
    · exact h1 h
    · exact hc h2
  · simp only [Bool.false_eq_true, false_iff]
    rintro (h | ⟨-, hp, -⟩)
    · exact h1 h
    · exact hp h3
  · simp only [Bool.false_eq_true, false_iff]
    rintro (h | ⟨-, -, hf⟩)
    · exact h1 h
    · exact hf h4
  · simp only [true_iff]
    exact Or.inr ⟨h2, h3, h4⟩

/-- Counterexample for C5: immediately after a sent EXTREME alert puts the
symbol in cooldown, a second `should_send_alert` call with priority 1.0 —
below 1.5 × the 0.7 threshold — still returns true, through the
EXTREME-and-priority-above-0.9 bypass that precedes the cooldown check. -/
theorem cooldown_monotonicity_counterexample :
    should_send_alert
      (update_alert_history initial_prioritizer "AAA" (sample_alert "EXTREME") 0)
      (sample_alert "EXTREME") 1 (7/10) 0 = true ∧
    (1 : ℚ) < (7/10) * (3/2) ∧
    cooldown_active
      (update_alert_history initial_prioritizer "AAA" (sample_alert "EXTREME") 0)
      "AAA" 0 = true := by
  refine ⟨?_, by norm_num, ?_⟩
  · unfold should_send_alert sample_alert
    norm_num
  · unfold cooldown_active update_alert_history initial_prioritizer sample_alert
    norm_num

/-- Claim C5 (amended): after `update_alert_history` records a sent alert
(cooldown expiry now + 3/5/10 minutes by risk), an immediately following
`should_send_alert` for that symbol returns false whenever priority is
below 1.5 × the dynamic threshold — unless the second alert is EXTREME
with priority above 0.9, in which case the bypass that precedes the
cooldown check fires. -/
theorem cooldown_blocks_second_send (st : PrioritizerState) (symbol : String)
    (alert alert2 : AlertData) (now priority dynamic_threshold : ℚ)
    (hsym : alert2.symbol = symbol)
    (hnotbypass : ¬ (alert2.risk_level = "EXTREME" ∧ priority > 9/10))
    (hp : priority < dynamic_threshold * (3/2)) :
    should_send_alert (update_alert_history st symbol alert now) alert2 priority
      dynamic_threshold now = false := by
  have hact : cooldown_active (update_alert_history st symbol alert now)
      alert2.symbol now = true := by
    unfold cooldown_active update_alert_history
    rw [hsym]
    simp only [if_pos rfl]
    split_ifs <;> norm_num
  unfold should_send_alert
  rw [if_neg hnotbypass, if_pos ⟨hact, hp⟩]

/-- Witness for C5 (amended): a HIGH alert sent at time 0 blocks a second
send at priority 0.8 against threshold 0.7. -/
theorem cooldown_blocks_second_send_witness :
    should_send_alert
      (update_alert_history initial_prioritizer "AAA" (sample_alert "HIGH") 0)
      (sample_alert "HIGH") (4/5) (7/10) 0 = false :=
  cooldown_blocks_second_send initial_prioritizer "AAA" (sample_alert "HIGH")
    (sample_alert "HIGH") 0 (4/5) (7/10) rfl
    (by unfold sample_alert; norm_num) (by norm_num)

/-- Claim C1: for every alert and market-conditions input,
`calculate_alert_priority` equals the base confidence times one plus the
summed additive adjustments, clamped to [0.1, 1.5] (and rounded to three
decimals), and the result always lies in [0.1, 1.5] — no combination of
the eight adjustments can escape the clamp. -/
theorem calculate_alert_priority_bounds (st : PrioritizerState)
    (alert : AlertData) (market_conditions : Option MarketConditions) (now : ℚ) :
    1/10 ≤ calculate_alert_priority st alert market_conditions now ∧
    calculate_alert_priority st alert market_conditions now ≤ 3/2 ∧
    calculate_alert_priority st alert market_conditions now =
      roundTo 3 (max (1/10)
        (min ((alert.patterns.confidence.getD (1/2)) *
          (1 + alert_adjustments st alert market_conditions now)) (3/2))) := by
  have hx1 : (1 : ℚ)/10 ≤ max (1/10)
      (min ((alert.patterns.confidence.getD (1/2)) *
        (1 + alert_adjustments st alert market_conditions now)) (3/2)) :=
    le_max_left _ _
  have hx2 : max ((1 : ℚ)/10)
      (min ((alert.patterns.confidence.getD (1/2)) *
        (1 + alert_adjustments st alert market_conditions now)) (3/2)) ≤ 3/2 :=
    max_le (by norm_num) (min_le_right _ _)
  have he1 : ((100 : ℤ) : ℚ) / 10 ^ 3 = 1/10 := by norm_num
  have he2 : ((1500 : ℤ) : ℚ) / 10 ^ 3 = 3/2 := by norm_num
  have hlo := le_roundTo 3 100 _ (he1.le.trans hx1)
  have hhi := roundTo_le 3 1500 _ (hx2.trans he2.ge)
  rw [he1] at hlo
  rw [he2] at hhi
  exact ⟨hlo, hhi, rfl⟩

/-- Claim C3: for every combination of detector outcomes with confidences
in [0, 1], the weighted confidence accumulated over the fixed v2 battery
before the statistical adjustment lies in [0, S], S being the sum of the
per-type weights table plus the 0.1 default carried by the battery member
absent from the table. -/
theorem weighted_confidence_pre_bounds
    (r1 r2 r3 r4 r5 r6 r7 r8 r9 : DetectorResult)
    (h : ∀ r ∈ [r1, r2, r3, r4, r5, r6, r7, r8, r9],
      0 ≤ r.confidence ∧ r.confidence ≤ 1) :
    0 ≤ (run_detectors
      [("volume_explosion", r1), ("rsi_divergence", r2), ("momentum_shift", r3),
       ("liquidity_trap", r4), ("accumulation", r5), ("liquidation_squeeze", r6),
       ("funding_arbitrage", r7), ("hidden_accumulation", r8),
       ("timeframe_divergence", r9)]).weighted_confidence ∧
    (run_detectors
      [("volume_explosion", r1), ("rsi_divergence", r2), ("momentum_shift", r3),
       ("liquidity_trap", r4), ("accumulation", r5), ("liquidation_squeeze", r6),
       ("funding_arbitrage", r7), ("hidden_accumulation", r8),
       ("timeframe_divergence", r9)]).weighted_confidence ≤
      signal_weights_sum_v2 := by
  constructor
  · exact run_detectors_wc_nonneg _
  · have hle := run_detectors_wc_le
      [("volume_explosion", r1), ("rsi_divergence", r2), ("momentum_shift", r3),
       ("liquidity_trap", r4), ("accumulation", r5), ("liquidation_squeeze", r6),
       ("funding_arbitrage", r7), ("hidden_accumulation", r8),
       ("timeframe_divergence", r9)]
      (by
        intro p hp
        rcases p with ⟨name, r⟩
        have hr : r ∈ [r1, r2, r3, r4, r5, r6, r7, r8, r9] := by
          simp only [List.mem_cons, Prod.mk.injEq, List.not_mem_nil, or_false] at hp ⊢
          rcases hp with ⟨-, h⟩ | ⟨-, h⟩ | ⟨-, h⟩ | ⟨-, h⟩ | ⟨-, h⟩ | ⟨-, h⟩ |
            ⟨-, h⟩ | ⟨-, h⟩ | ⟨-, h⟩ <;> subst h <;> tauto
        exact (h r hr).2)
    refine hle.trans ?_
    unfold signal_weights_sum_v2 signal_weights_v2
    simp only [List.map_cons, List.map_nil, List.sum_cons, List.sum_nil,
      String.reduceEq, reduceIte]
    norm_num

/-- Witness for C3: the all-silent battery has weighted confidence 0,
inside [0, S]. -/
theorem weighted_confidence_pre_bounds_witness :
    0 ≤ (run_detectors
      [("volume_explosion", noSignal), ("rsi_divergence", noSignal),
       ("momentum_shift", noSignal), ("liquidity_trap", noSignal),
       ("accumulation", noSignal), ("liquidation_squeeze", noSignal),
       ("funding_arbitrage", noSignal), ("hidden_accumulation", noSignal),
       ("timeframe_divergence", noSignal)]).weighted_confidence ∧
    (run_detectors
      [("volume_explosion", noSignal), ("rsi_divergence", noSignal),
       ("momentum_shift", noSignal), ("liquidity_trap", noSignal),
       ("accumulation", noSignal), ("liquidation_squeeze", noSignal),
       ("funding_arbitrage", noSignal), ("hidden_accumulation", noSignal),
       ("timeframe_divergence", noSignal)]).weighted_confidence ≤
      signal_weights_sum_v2 :=
  weighted_confidence_pre_bounds noSignal noSignal noSignal noSignal noSignal
    noSignal noSignal noSignal noSignal
    (by
      intro r hr
      simp only [List.mem_cons, List.not_mem_nil, or_false] at hr
      have : r = noSignal := by tauto
      rw [this]
      constructor <;> norm_num [noSignal])

/-- Counterexample for C2: with a timeframe divergence flagged at strength
0, the timeframe-divergence detector triggers (at confidence exactly 0),
yet the composite — which only counts detectors with `confidence > 0` —
reports NEUTRAL with risk LOW instead of the claimed WATCH with risk
MEDIUM. -/
theorem composite_decision_counterexample :
    (detect_timeframe_divergence_signal (some c2_tf) c2_market).triggered = true ∧
    (detect_timeframe_divergence_signal (some c2_tf) c2_market).confidence = 0 ∧
    (calculate_composite_signal_v2 c2_market none none none none
      (some c2_tf)).confidence = 0 ∧
    (calculate_composite_signal_v2 c2_market none none none none
      (some c2_tf)).action = "NEUTRAL" ∧
    (calculate_composite_signal_v2 c2_market none none none none
      (some c2_tf)).risk_level = "LOW" := by
  have h1 : detect_volume_explosion c2_market = noSignal := by
    unfold detect_volume_explosion c2_market
    norm_num
  have h2 : detect_rsi_divergence c2_market = noSignal := by
    unfold detect_rsi_divergence c2_market
    norm_num
  have h3 : detect_momentum_shift c2_market = noSignal := by
    unfold detect_momentum_shift c2_market
    norm_num
  have h4 : detect_liquidity_trap c2_market none = noSignal := rfl
  have h5 : detect_accumulation_distribution c2_market none = noSignal := by
    unfold detect_accumulation_distribution c2_market optTest
    norm_num
  have h6 : detect_liquidation_squeeze c2_market none none = noSignal := rfl
  have h7 : detect_funding_arbitrage c2_market none none = noSignal := rfl
  have h8 : detect_hidden_accumulation_v2 c2_market none none = noSignal := by
    unfold detect_hidden_accumulation_v2 c2_market
    norm_num
  have htf : detect_timeframe_divergence_signal (some c2_tf) c2_market =
      ⟨true, 0, "Bullish TF divergence"⟩ := by
    unfold detect_timeframe_divergence_signal c2_tf c2_market
    norm_num [min_def]
  have hbatt : detector_battery_v2 c2_market none none none none (some c2_tf) =
      [("volume_explosion", noSignal), ("rsi_divergence", noSignal),
       ("momentum_shift", noSignal), ("liquidity_trap", noSignal),
       ("accumulation", noSignal), ("liquidation_squeeze", noSignal),
       ("funding_arbitrage", noSignal), ("hidden_accumulation", noSignal),
       ("timeframe_divergence", ⟨true, 0, "Bullish TF divergence"⟩)] := by
    unfold detector_battery_v2
    rw [h1, h2, h3, h4, h5, h6, h7, h8, htf]
  have hagg : composite_agg c2_market none none none none (some c2_tf) =
      ⟨0, 0, []⟩ := by
    unfold composite_agg
    rw [hbatt]
    norm_num [run_detectors, noSignal]
  refine ⟨by rw [htf], by rw [htf], ?_, ?_, ?_⟩ <;>
  · unfold calculate_composite_signal_v2
    rw [hagg]
    norm_num [statistical_adjustment]

/-- Claim C2 (amended): the composite decision is exactly the claimed rule
once "triggered" is read as "triggered with positive confidence" (the
composite counts only detectors whose confidence exceeds 0): risk and
action are the stated functions of the adjusted weighted confidence, the
count of counted signals, their average confidence, the sign of the
5-minute change, and the funding special case; risk depends on nothing
else. -/
theorem composite_decision_amended (d : MarketData) (ob : Option OrderBook)
    (fd : Option FundingData) (ld : Option LiquidationData)
    (sd : Option StatsData) (tf : Option TFDivergence) :
    (calculate_composite_signal_v2 d ob fd ld sd tf).action =
      claim_action
        (statistical_adjustment sd
          (composite_agg d ob fd ld sd tf).weighted_confidence)
        (composite_agg d ob fd ld sd tf).active_signals.length
        ((composite_agg d ob fd ld sd tf).total_confidence /
          ((composite_agg d ob fd ld sd tf).active_signals.length : ℚ))
        d.change_5m
        ((composite_agg d ob fd ld sd tf).active_signals.any
          (fun s => s.type = "funding_arbitrage"))
        (match fd with
         | some f => f.favorable_position
         | none => "neutral") ∧
    (calculate_composite_signal_v2 d ob fd ld sd tf).risk_level =
      claim_risk_level
        (statistical_adjustment sd
          (composite_agg d ob fd ld sd tf).weighted_confidence)
        (composite_agg d ob fd ld sd tf).active_signals.length
        ((composite_agg d ob fd ld sd tf).total_confidence /
          ((composite_agg d ob fd ld sd tf).active_signals.length : ℚ)) := by
  unfold calculate_composite_signal_v2 claim_action claim_risk_level
  dsimp only
  by_cases h0 : (composite_agg d ob fd ld sd tf).active_signals.length > 0
  · have hn0 : ¬ ((composite_agg d ob fd ld sd tf).active_signals.length = 0) := by
      omega
    rw [if_pos h0, if_neg hn0, if_neg hn0]
    by_cases hc1 : statistical_adjustment sd
        (composite_agg d ob fd ld sd tf).weighted_confidence > 7/10 ∨
        ((composite_agg d ob fd ld sd tf).active_signals.length ≥ 3 ∧
         (composite_agg d ob fd ld sd tf).total_confidence /
           ((composite_agg d ob fd ld sd tf).active_signals.length : ℚ) > 3/5)
    · rw [if_pos hc1, if_pos hc1, if_pos hc1]
      exact ⟨rfl, rfl⟩
    · rw [if_neg hc1, if_neg hc1, if_neg hc1]
      by_cases hc2 : statistical_adjustment sd
          (composite_agg d ob fd ld sd tf).weighted_confidence > 1/2 ∨
          ((composite_agg d ob fd ld sd tf).active_signals.length ≥ 2 ∧
           (composite_agg d ob fd ld sd tf).total_confidence /
             ((composite_agg d ob fd ld sd tf).active_signals.length : ℚ) > 1/2)
      · rw [if_pos hc2, if_pos hc2, if_pos hc2]
        exact ⟨rfl, rfl⟩
      · rw [if_neg hc2, if_neg hc2, if_neg hc2]
        exact ⟨rfl, rfl⟩
  · have hn0 : (composite_agg d ob fd ld sd tf).active_signals.length = 0 := by
      omega
    rw [if_neg h0, if_pos hn0, if_pos hn0]
    exact ⟨rfl, rfl⟩

end Mexc
